import Mathlib

/-
Verification of the finetuning driver script
src/examples/language_model/llama/finetune_generation.py (PaddleNLP).

The script is pure orchestration: it parses three argument dataclasses,
detects a last checkpoint, chooses a model class and dtype, loads a
pretrained model, optionally wraps it with LoRA and/or prefix tuning,
loads a tokenizer, builds datasets, constructs a trainer and invokes
train/evaluate.  We embed `main` as a function from the parsed arguments
and an environment model (filesystem / checkpoint observations) to an
event trace: `Except (String × List Event) (List Event)`, where an error
carries the Python ValueError message together with the trace of steps
performed before the raise.  Pure logging calls (training_args.print_config,
logger.warning, logger.info, print_trainable_parameters) have no effect on
control flow or on any claim and are not modelled as events; likewise the
attribute writes at lines 77 and 83 (always_pad_to_max_length,
lr_decay_ratio) and the device/seed setup at lines 85-87.
-/

namespace FinetuneGeneration

/-- The DataArgument dataclass (lines 38-56).  Fields of float type
(length_penalty, top_p) are never read by main's control flow and are
omitted; defaults follow the source. -/
structure DataArgument where
  task_name : String := "squad"
  src_length : Nat := 1024
  tgt_length : Nat := 142
  min_tgt_length : Nat := 0
  no_repeat_ngram_size : Nat := 3
  num_beams : Nat := 5
  select_topk : Bool := true
  top_k : Nat := 0
deriving DecidableEq

/-- The ModelArgument dataclass (lines 59-71).  The float field
lr_decay_ratio is only copied onto training_args (line 83) and is omitted;
defaults follow the source. -/
structure ModelArgument where
  model_name_or_path : String := "facebook/llama-7b"
  lora : Bool := false
  use_flash_attention : Bool := false
  eval_with_do_generation : Bool := true
  prefix_tuning : Bool := false
deriving DecidableEq

/-- The fields of the external TrainingArguments that main reads
(modelled from their uses in the script; the class itself is framework
code outside this file). -/
structure TrainingArguments where
  output_dir : String := "output"
  do_train : Bool := false
  do_eval : Bool := false
  overwrite_output_dir : Bool := false
  resume_from_checkpoint : Option String := none
  fp16 : Bool := false
  bf16 : Bool := false
  fp16_opt_level : String := "O1"
  pipeline_parallel_degree : Int := 1
  tensor_parallel_degree : Int := 1
  recompute : Bool := false
deriving DecidableEq

/-- The observations main makes of its environment: whether
training_args.output_dir is a directory (os.path.isdir, line 97), how many
entries os.listdir returns for it (line 99), and what
get_last_checkpoint returns on it (line 98). -/
structure Env where
  output_dir_is_dir : Bool := false
  output_dir_num_entries : Nat := 0
  last_checkpoint : Option String := none
deriving DecidableEq

/-- The two model classes the script can hand to from_pretrained
(lines 118-122). -/
inductive ModelClass where
  | AutoModelForCausalLM : ModelClass
  | LlamaForCausalLMPipe : ModelClass
deriving DecidableEq

/-- The model value as the script transforms it: the from_pretrained result
(line 125), optionally wrapped by LoRAModel (line 147) and then optionally
by PrefixModelForCausalLM (line 161). -/
inductive Model where
  | pretrained : ModelClass → String → String → Model
  | loraWrapped : Model → Model
  | prefixWrapped : Model → Model
deriving DecidableEq

/-- The observable steps of main, in the order the script performs them.
buildTrainer records the model handed to LlamaTrainer, whether
train_dataset / eval_dataset are non-None, whether compute_metrics is
non-None, and the do_generation argument (lines 211-222). -/
inductive Event where
  | parseArgs : Event
  | detectCheckpoint : Option String → Event
  | loadModel : ModelClass → String → String → Event
  | wrapLoRA : Event
  | wrapPrefixModel : Event
  | loadTokenizer : String → Event
  | loadDatasets : String → List String → Event
  | mapTrainDS : Event
  | mapDevDS : Bool → Event
  | buildTrainer : Model → Bool → Bool → Bool → Bool → Event
  | trainerTrain : Option String → Event
  | saveModel : Bool → Event
  | logMetrics : String → Event
  | saveMetrics : String → Event
  | saveState : Event
  | trainerEvaluate : Event
deriving DecidableEq

/-- The ValueError message of lines 100-103, with the f-string hole filled
by the output directory. -/
def outputDirErrorMsg (ta : TrainingArguments) : String :=
  "Output directory (" ++ ta.output_dir ++
    ") already exists and is not empty. Use --overwrite_output_dir to overcome."

/-- Lines 95-108: last_checkpoint starts as None; when output_dir is a
directory, do_train is set and overwrite_output_dir is not,
get_last_checkpoint is consulted, and a ValueError is raised when it found
nothing and the directory has more than one entry.  The elif branch
(lines 104-108) only logs and is not modelled. -/
def detectLastCheckpoint (ta : TrainingArguments) (env : Env) :
    Except String (Option String) :=
  if env.output_dir_is_dir && ta.do_train && !ta.overwrite_output_dir then
    match env.last_checkpoint with
    | none =>
        if env.output_dir_num_entries > 1 then
          Except.error (outputDirErrorMsg ta)
        else
          Except.ok none
    | some ckpt => Except.ok (some ckpt)
  else
    Except.ok none

/-- Lines 110-116: dtype starts as float32 and, only under
fp16_opt_level == O2, is overwritten to float16 when fp16 is set and then
to bfloat16 when bf16 is set (so bf16 wins when both are set). -/
def computeDtype (ta : TrainingArguments) : String :=
  let dtype := "float32"
  if ta.fp16_opt_level = "O2" then
    let dtype := if ta.fp16 then "float16" else dtype
    let dtype := if ta.bf16 then "bfloat16" else dtype
    dtype
  else
    dtype

/-- Lines 118-122: the model class is AutoModelForCausalLM unless
pipeline_parallel_degree > 1, in which case it is LlamaForCausalLMPipe;
in that case a ValueError is raised first when eval_with_do_generation
and do_eval are both set. -/
def selectModelClass (ma : ModelArgument) (ta : TrainingArguments) :
    Except String ModelClass :=
  if ta.pipeline_parallel_degree > 1 then
    if ma.eval_with_do_generation && ta.do_eval then
      Except.error "Plese set eval_with_do_generation to false in pipeline parallel mode."
    else
      Except.ok ModelClass.LlamaForCausalLMPipe
  else
    Except.ok ModelClass.AutoModelForCausalLM

/-- The straight-line rest of main (lines 124-233) once checkpoint
detection and class selection have succeeded: load the model with the
chosen class, name and dtype (125-135), wrap with LoRA when
model_args.lora (137-149), wrap with prefix tuning when
model_args.prefix_tuning (151-167), load the tokenizer from the same name
(169-173), load and map the datasets under do_train/do_eval (176-185),
build the trainer (211-222), then run the train block (224-229) and the
eval block (231-233) under their flags. -/
def okTrace (ma : ModelArgument) (da : DataArgument) (ta : TrainingArguments)
    (last_checkpoint : Option String) (model_class : ModelClass) : List Event :=
  let dtype := computeDtype ta
  let model := Model.pretrained model_class ma.model_name_or_path dtype
  let evs := [Event.parseArgs, Event.detectCheckpoint last_checkpoint,
    Event.loadModel model_class ma.model_name_or_path dtype]
  let model := if ma.lora then Model.loraWrapped model else model
  let evs := if ma.lora then evs ++ [Event.wrapLoRA] else evs
  let model := if ma.prefix_tuning then Model.prefixWrapped model else model
  let evs := if ma.prefix_tuning then evs ++ [Event.wrapPrefixModel] else evs
  let evs := evs ++ [Event.loadTokenizer ma.model_name_or_path]
  let evs := if ta.do_train || ta.do_eval then
      evs ++ [Event.loadDatasets da.task_name ["train_v1", "dev_v1"]]
    else evs
  let evs := if ta.do_train then evs ++ [Event.mapTrainDS] else evs
  let evs := if ta.do_eval then
      evs ++ [Event.mapDevDS ma.eval_with_do_generation]
    else evs
  let evs := evs ++ [Event.buildTrainer model ta.do_train ta.do_eval
    (ma.eval_with_do_generation && ta.do_eval) ma.eval_with_do_generation]
  let evs := if ta.do_train then
      evs ++ [Event.trainerTrain last_checkpoint,
        Event.saveModel (decide (ta.tensor_parallel_degree > 1)),
        Event.logMetrics "train", Event.saveMetrics "train", Event.saveState]
    else evs
  let evs := if ta.do_eval then
      evs ++ [Event.trainerEvaluate, Event.logMetrics "test"]
    else evs
  evs

/-- main (lines 74-233): parse arguments, detect the last checkpoint
(raising the output-directory ValueError inside that block), select the
model class (raising the pipeline-parallel ValueError inside that block),
then run the straight-line rest.  An error carries the ValueError message
and the trace of events performed before the raise. -/
def main (ma : ModelArgument) (da : DataArgument) (ta : TrainingArguments)
    (env : Env) : Except (String × List Event) (List Event) :=
  match detectLastCheckpoint ta env with
  | Except.error msg => Except.error (msg, [Event.parseArgs])
  | Except.ok last_checkpoint =>
    match selectModelClass ma ta with
    | Except.error msg =>
        Except.error (msg, [Event.parseArgs, Event.detectCheckpoint last_checkpoint])
    | Except.ok model_class =>
        Except.ok (okTrace ma da ta last_checkpoint model_class)

/-- The model argument of the first buildTrainer event of a trace. -/
def trainerModelOf : List Event → Option Model
  | [] => none
  | Event.buildTrainer mdl _ _ _ _ :: _ => some mdl
  | _ :: rest => trainerModelOf rest

/-- Whether an event is a loadModel (a from_pretrained call on the model
class). -/
def Event.isLoadModel : Event → Bool
  | Event.loadModel _ _ _ => true
  | _ => false

/-- Whether an event is a loadTokenizer (the AutoTokenizer.from_pretrained
call). -/
def Event.isLoadTok : Event → Bool
  | Event.loadTokenizer _ => true
  | _ => false

/-- Line 193/195: the numpy mask x[x != -100] keeps the tokens that are
not the ignore index -100. -/
def filterIgnoreIndex (x : List Int) : List Int :=
  x.filter (fun t => t != -100)

/-- The whitespace characters Python's str.strip() removes (the ASCII ones:
space, tab, newline, carriage return, vertical tab, form feed). -/
def pyIsSpace (c : Char) : Bool :=
  c = ' ' || c = '\t' || c = '\n' || c = '\r' ||
    c = Char.ofNat 11 || c = Char.ofNat 12

/-- Python's two-sided strip: drop characters satisfying p from both ends. -/
def pyStripWhile (p : Char → Bool) (s : String) : String :=
  String.mk (((s.toList.dropWhile p).reverse.dropWhile p).reverse)

/-- Python str.strip() with no argument (lines 198-199). -/
def pyStrip (s : String) : String :=
  pyStripWhile pyIsSpace s

/-- Python str.strip(chars) (lines 200-201): chars is a set of characters,
removed from both ends while present. -/
def pyStripChars (chars : String) (s : String) : String :=
  pyStripWhile (fun c => chars.toList.contains c) s

/-- The nested compute_metrics_trainer (lines 189-204), with the two
external calls as parameters: batch_decode stands for
tokenizer.batch_decode and compute_metrics for the imported scorer.  The
body mirrors the source line by line: start from empty lists, mask -100
from predictions and labels, decode, strip whitespace, strip the
characters of the string question-colon, and hand the result to
compute_metrics. -/
def computeMetricsTrainer {α : Type} (batch_decode : List (List Int) → List String)
    (compute_metrics : List String → List String → α)
    (predictions : List (List Int)) (label_ids : List (List Int)) : α :=
  let all_preds : List String := []
  let all_labels : List String := []
  let preds := predictions
  let preds := preds.map filterIgnoreIndex
  let all_preds := all_preds ++ batch_decode preds
  let labels := label_ids.map filterIgnoreIndex
  let all_labels := all_labels ++ batch_decode labels
  let all_preds := all_preds.map pyStrip
  let all_labels := all_labels.map pyStrip
  let all_preds := all_preds.map (pyStripChars "question:")
  let all_labels := all_labels.map (pyStripChars "question:")
  compute_metrics all_preds all_labels

/-- The per-string post-processing the script itself applies to every
decoded prediction and label before scoring (lines 198-201). -/
def scriptPostprocess (s : String) : String :=
  pyStripChars "question:" (pyStrip s)

/-- The model value handed to the trainer as a function of the two adapter
flags: the base model, wrapped by LoRA when lora is set, then by the
prefix-tuning wrapper when prefix_tuning is set. -/
def wrappedModel (ma : ModelArgument) (base : Model) : Model :=
  let model := if ma.lora then Model.loraWrapped base else base
  if ma.prefix_tuning then Model.prefixWrapped model else model

/-- A successful run of main means checkpoint detection and class selection
both succeeded and the trace is the straight-line trace. -/
theorem main_ok_elim (ma : ModelArgument) (da : DataArgument)
    (ta : TrainingArguments) (env : Env) (evs : List Event)
    (h : main ma da ta env = Except.ok evs) :
    ∃ lc cls, detectLastCheckpoint ta env = Except.ok lc ∧
      selectModelClass ma ta = Except.ok cls ∧
      evs = okTrace ma da ta lc cls := by
  unfold main at h
  cases h1 : detectLastCheckpoint ta env with
  | error msg => rw [h1] at h; exact absurd h (by simp)
  | ok lc =>
    rw [h1] at h
    cases h2 : selectModelClass ma ta with
    | error msg => rw [h2] at h; exact absurd h (by simp)
    | ok cls =>
      rw [h2] at h
      refine ⟨lc, cls, rfl, rfl, ?_⟩
      injection h with h3
      exact h3.symm

/-- A successful class selection yields LlamaForCausalLMPipe exactly when
pipeline_parallel_degree exceeds one. -/
theorem selectModelClass_ok (ma : ModelArgument) (ta : TrainingArguments)
    (cls : ModelClass) (h : selectModelClass ma ta = Except.ok cls) :
    cls = if ta.pipeline_parallel_degree > 1 then ModelClass.LlamaForCausalLMPipe
          else ModelClass.AutoModelForCausalLM := by
  unfold selectModelClass at h
  by_cases h1 : ta.pipeline_parallel_degree > 1
  · by_cases h2 : (ma.eval_with_do_generation && ta.do_eval) = true <;>
      simp [h1, h2] at h ⊢
    exact h.symm
  · simp [h1] at h ⊢
    exact h.symm

/-- The straight-line trace decomposed into its segments. -/
theorem okTrace_eq (ma : ModelArgument) (da : DataArgument)
    (ta : TrainingArguments) (lc : Option String) (cls : ModelClass) :
    okTrace ma da ta lc cls =
      [Event.parseArgs, Event.detectCheckpoint lc,
       Event.loadModel cls ma.model_name_or_path (computeDtype ta)]
      ++ ((if ma.lora then [Event.wrapLoRA] else []) ++
          (if ma.prefix_tuning then [Event.wrapPrefixModel] else []))
      ++ [Event.loadTokenizer ma.model_name_or_path]
      ++ ((if ta.do_train || ta.do_eval then
            [Event.loadDatasets da.task_name ["train_v1", "dev_v1"]] else []) ++
          (if ta.do_train then [Event.mapTrainDS] else []) ++
          (if ta.do_eval then [Event.mapDevDS ma.eval_with_do_generation] else []))
      ++ [Event.buildTrainer
            (wrappedModel ma (Model.pretrained cls ma.model_name_or_path (computeDtype ta)))
            ta.do_train ta.do_eval
            (ma.eval_with_do_generation && ta.do_eval) ma.eval_with_do_generation]
      ++ (if ta.do_train then
            [Event.trainerTrain lc,
             Event.saveModel (decide (ta.tensor_parallel_degree > 1)),
             Event.logMetrics "train", Event.saveMetrics "train", Event.saveState]
          else [])
      ++ (if ta.do_eval then [Event.trainerEvaluate, Event.logMetrics "test"] else []) := by
  unfold okTrace wrappedModel
  by_cases h1 : ma.lora <;> by_cases h2 : ma.prefix_tuning <;>
    by_cases h3 : ta.do_train <;> by_cases h4 : ta.do_eval <;>
    simp [h1, h2, h3, h4]

/-- The dtype computation in if-then-else form: bfloat16 under O2 with
bf16 set, float16 under O2 with fp16 set and bf16 clear, float32
otherwise. -/
theorem computeDtype_spec (ta : TrainingArguments) :
    computeDtype ta =
      if ta.fp16_opt_level = "O2" ∧ ta.bf16 = true then "bfloat16"
      else if ta.fp16_opt_level = "O2" ∧ ta.fp16 = true then "float16"
      else "float32" := by
  unfold computeDtype
  by_cases h1 : ta.fp16_opt_level = "O2" <;>
    by_cases h2 : ta.bf16 <;> by_cases h3 : ta.fp16 <;> simp [h1, h2, h3]

/-- The trainer of the straight-line trace receives the wrapped model. -/
theorem okTrace_trainerModel (ma : ModelArgument) (da : DataArgument)
    (ta : TrainingArguments) (lc : Option String) (cls : ModelClass) :
    trainerModelOf (okTrace ma da ta lc cls) =
      some (wrappedModel ma
        (Model.pretrained cls ma.model_name_or_path (computeDtype ta))) := by
  rw [okTrace_eq]
  split_ifs <;> simp [trainerModelOf]

/-- Membership of a loadModel event in the straight-line trace. -/
theorem okTrace_loadModel_mem (ma : ModelArgument) (da : DataArgument)
    (ta : TrainingArguments) (lc : Option String) (cls cls' : ModelClass)
    (name dt : String) :
    Event.loadModel cls' name dt ∈ okTrace ma da ta lc cls ↔
      (cls' = cls ∧ name = ma.model_name_or_path ∧ dt = computeDtype ta) := by
  rw [okTrace_eq]
  split_ifs <;> simp

/-- Membership of a loadTokenizer event in the straight-line trace. -/
theorem okTrace_loadTok_mem (ma : ModelArgument) (da : DataArgument)
    (ta : TrainingArguments) (lc : Option String) (cls : ModelClass)
    (name : String) :
    Event.loadTokenizer name ∈ okTrace ma da ta lc cls ↔
      name = ma.model_name_or_path := by
  rw [okTrace_eq]
  split_ifs <;> simp

/-- The straight-line trace holds exactly one loadModel event. -/
theorem okTrace_countP_loadModel (ma : ModelArgument) (da : DataArgument)
    (ta : TrainingArguments) (lc : Option String) (cls : ModelClass) :
    (okTrace ma da ta lc cls).countP Event.isLoadModel = 1 := by
  rw [okTrace_eq]
  split_ifs <;> simp [List.countP_cons, List.countP_append, Event.isLoadModel]

/-- The straight-line trace holds exactly one loadTokenizer event. -/
theorem okTrace_countP_loadTok (ma : ModelArgument) (da : DataArgument)
    (ta : TrainingArguments) (lc : Option String) (cls : ModelClass) :
    (okTrace ma da ta lc cls).countP Event.isLoadTok = 1 := by
  rw [okTrace_eq]
  split_ifs <;> simp [List.countP_cons, List.countP_append, Event.isLoadTok]

/-- Membership of a trainerTrain event in the straight-line trace. -/
theorem okTrace_trainerTrain_mem (ma : ModelArgument) (da : DataArgument)
    (ta : TrainingArguments) (lc : Option String) (cls : ModelClass)
    (r : Option String) :
    Event.trainerTrain r ∈ okTrace ma da ta lc cls ↔
      (r = lc ∧ ta.do_train = true) := by
  rw [okTrace_eq]
  by_cases h3 : ta.do_train = true <;> by_cases h4 : ta.do_eval = true <;>
    split_ifs <;> simp_all

/-- Membership of a saveModel event in the straight-line trace. -/
theorem okTrace_saveModel_mem (ma : ModelArgument) (da : DataArgument)
    (ta : TrainingArguments) (lc : Option String) (cls : ModelClass) (b : Bool) :
    Event.saveModel b ∈ okTrace ma da ta lc cls ↔
      (b = decide (ta.tensor_parallel_degree > 1) ∧ ta.do_train = true) := by
  rw [okTrace_eq]
  by_cases h3 : ta.do_train = true <;> by_cases h4 : ta.do_eval = true <;>
    split_ifs <;> simp_all

/-- Membership of a logMetrics event in the straight-line trace. -/
theorem okTrace_logMetrics_mem (ma : ModelArgument) (da : DataArgument)
    (ta : TrainingArguments) (lc : Option String) (cls : ModelClass) (s : String) :
    Event.logMetrics s ∈ okTrace ma da ta lc cls ↔
      ((s = "train" ∧ ta.do_train = true) ∨ (s = "test" ∧ ta.do_eval = true)) := by
  rw [okTrace_eq]
  by_cases h3 : ta.do_train = true <;> by_cases h4 : ta.do_eval = true <;>
    split_ifs <;> simp_all

/-- Membership of a saveMetrics event in the straight-line trace. -/
theorem okTrace_saveMetrics_mem (ma : ModelArgument) (da : DataArgument)
    (ta : TrainingArguments) (lc : Option String) (cls : ModelClass) (s : String) :
    Event.saveMetrics s ∈ okTrace ma da ta lc cls ↔
      (s = "train" ∧ ta.do_train = true) := by
  rw [okTrace_eq]
  by_cases h3 : ta.do_train = true <;> by_cases h4 : ta.do_eval = true <;>
    split_ifs <;> simp_all

/-- Membership of the saveState event in the straight-line trace. -/
theorem okTrace_saveState_mem (ma : ModelArgument) (da : DataArgument)
    (ta : TrainingArguments) (lc : Option String) (cls : ModelClass) :
    Event.saveState ∈ okTrace ma da ta lc cls ↔ ta.do_train = true := by
  rw [okTrace_eq]
  by_cases h3 : ta.do_train = true <;> by_cases h4 : ta.do_eval = true <;>
    split_ifs <;> simp_all

/-- Membership of the trainerEvaluate event in the straight-line trace. -/
theorem okTrace_trainerEvaluate_mem (ma : ModelArgument) (da : DataArgument)
    (ta : TrainingArguments) (lc : Option String) (cls : ModelClass) :
    Event.trainerEvaluate ∈ okTrace ma da ta lc cls ↔ ta.do_eval = true := by
  rw [okTrace_eq]
  by_cases h3 : ta.do_train = true <;> by_cases h4 : ta.do_eval = true <;>
    split_ifs <;> simp_all

/-- Membership of a loadDatasets event in the straight-line trace. -/
theorem okTrace_loadDatasets_mem (ma : ModelArgument) (da : DataArgument)
    (ta : TrainingArguments) (lc : Option String) (cls : ModelClass)
    (task : String) (splits : List String) :
    Event.loadDatasets task splits ∈ okTrace ma da ta lc cls ↔
      (task = da.task_name ∧ splits = ["train_v1", "dev_v1"] ∧
       (ta.do_train || ta.do_eval) = true) := by
  rw [okTrace_eq]
  by_cases h3 : ta.do_train = true <;> by_cases h4 : ta.do_eval = true <;>
    split_ifs <;> simp_all

/-- Membership of the mapTrainDS event in the straight-line trace. -/
theorem okTrace_mapTrainDS_mem (ma : ModelArgument) (da : DataArgument)
    (ta : TrainingArguments) (lc : Option String) (cls : ModelClass) :
    Event.mapTrainDS ∈ okTrace ma da ta lc cls ↔ ta.do_train = true := by
  rw [okTrace_eq]
  by_cases h3 : ta.do_train = true <;> by_cases h4 : ta.do_eval = true <;>
    split_ifs <;> simp_all

/-- Membership of a mapDevDS event in the straight-line trace. -/
theorem okTrace_mapDevDS_mem (ma : ModelArgument) (da : DataArgument)
    (ta : TrainingArguments) (lc : Option String) (cls : ModelClass) (b : Bool) :
    Event.mapDevDS b ∈ okTrace ma da ta lc cls ↔
      (b = ma.eval_with_do_generation ∧ ta.do_eval = true) := by
  rw [okTrace_eq]
  by_cases h3 : ta.do_train = true <;> by_cases h4 : ta.do_eval = true <;>
    split_ifs <;> simp_all

/-- Membership of a buildTrainer event in the straight-line trace. -/
theorem okTrace_buildTrainer_mem (ma : ModelArgument) (da : DataArgument)
    (ta : TrainingArguments) (lc : Option String) (cls : ModelClass)
    (mdl : Model) (b1 b2 b3 b4 : Bool) :
    Event.buildTrainer mdl b1 b2 b3 b4 ∈ okTrace ma da ta lc cls ↔
      (mdl = wrappedModel ma
          (Model.pretrained cls ma.model_name_or_path (computeDtype ta)) ∧
       b1 = ta.do_train ∧ b2 = ta.do_eval ∧
       b3 = (ma.eval_with_do_generation && ta.do_eval) ∧
       b4 = ma.eval_with_do_generation) := by
  rw [okTrace_eq]
  split_ifs <;> simp

/-- C1: for every parsed configuration on which main completes, the model
handed to the trainer is the from_pretrained result, wrapped by LoRAModel
exactly when model_args.lora is set, and then wrapped by
PrefixModelForCausalLM exactly when model_args.prefix_tuning is set; with
neither flag the from_pretrained result is passed unwrapped. -/
theorem C1_model_wrapping (ma : ModelArgument) (da : DataArgument)
    (ta : TrainingArguments) (env : Env) (evs : List Event)
    (h : main ma da ta env = Except.ok evs) :
    trainerModelOf evs = some (
      let base := Model.pretrained
        (if ta.pipeline_parallel_degree > 1 then ModelClass.LlamaForCausalLMPipe
         else ModelClass.AutoModelForCausalLM)
        ma.model_name_or_path (computeDtype ta)
      let withLora := if ma.lora then Model.loraWrapped base else base
      if ma.prefix_tuning then Model.prefixWrapped withLora else withLora) := by
  obtain ⟨lc, cls, h1, h2, rfl⟩ := main_ok_elim ma da ta env evs h
  rcases selectModelClass_ok ma ta cls h2 with rfl
  rw [okTrace_trainerModel]
  simp only [wrappedModel]

/-- C5: on a completed run, the datasets are loaded with data_args.task_name
and splits train_v1, dev_v1 exactly when do_train or do_eval is set; the
train split is mapped exactly when do_train is set; the dev split is mapped,
with is_test equal to model_args.eval_with_do_generation, exactly when
do_eval is set; and the trainer's train_dataset / eval_dataset are non-None
exactly under do_train / do_eval respectively. -/
theorem C5_dataset_flags (ma : ModelArgument) (da : DataArgument)
    (ta : TrainingArguments) (env : Env) (evs : List Event)
    (h : main ma da ta env = Except.ok evs) :
    ((Event.loadDatasets da.task_name ["train_v1", "dev_v1"] ∈ evs) ↔
      (ta.do_train || ta.do_eval) = true) ∧
    ((Event.mapTrainDS ∈ evs) ↔ ta.do_train = true) ∧
    ((∃ b, Event.mapDevDS b ∈ evs) ↔ ta.do_eval = true) ∧
    (∀ b, Event.mapDevDS b ∈ evs → b = ma.eval_with_do_generation) ∧
    (∃ mdl, Event.buildTrainer mdl ta.do_train ta.do_eval
      (ma.eval_with_do_generation && ta.do_eval) ma.eval_with_do_generation ∈ evs) ∧
    (∀ mdl b1 b2 b3 b4, Event.buildTrainer mdl b1 b2 b3 b4 ∈ evs →
      b1 = ta.do_train ∧ b2 = ta.do_eval) := by
  obtain ⟨lc, cls, h1, h2, rfl⟩ := main_ok_elim ma da ta env evs h
  refine ⟨?_, okTrace_mapTrainDS_mem ma da ta lc cls, ?_, ?_, ?_, ?_⟩
  · rw [okTrace_loadDatasets_mem]; simp
  · constructor
    · rintro ⟨b, hb⟩
      exact ((okTrace_mapDevDS_mem ma da ta lc cls b).mp hb).2
    · intro hde
      exact ⟨ma.eval_with_do_generation,
        (okTrace_mapDevDS_mem ma da ta lc cls _).mpr ⟨rfl, hde⟩⟩
  · intro b hb
    exact ((okTrace_mapDevDS_mem ma da ta lc cls b).mp hb).1
  · exact ⟨wrappedModel ma
      (Model.pretrained cls ma.model_name_or_path (computeDtype ta)),
      (okTrace_buildTrainer_mem ma da ta lc cls _ _ _ _ _).mpr
        ⟨rfl, rfl, rfl, rfl, rfl⟩⟩
  · intro mdl b1 b2 b3 b4 hb
    obtain ⟨_, hb1, hb2, _, _⟩ :=
      (okTrace_buildTrainer_mem ma da ta lc cls mdl b1 b2 b3 b4).mp hb
    exact ⟨hb1, hb2⟩

/-- C6: on a completed run, the trace holds exactly one model-loading
from_pretrained call and exactly one tokenizer from_pretrained call, and
both use model_args.model_name_or_path. -/
theorem C6_single_from_pretrained (ma : ModelArgument) (da : DataArgument)
    (ta : TrainingArguments) (env : Env) (evs : List Event)
    (h : main ma da ta env = Except.ok evs) :
    evs.countP Event.isLoadModel = 1 ∧
    evs.countP Event.isLoadTok = 1 ∧
    (∃ cls, Event.loadModel cls ma.model_name_or_path (computeDtype ta) ∈ evs) ∧
    Event.loadTokenizer ma.model_name_or_path ∈ evs ∧
    (∀ cls name dt, Event.loadModel cls name dt ∈ evs →
      name = ma.model_name_or_path) ∧
    (∀ name, Event.loadTokenizer name ∈ evs → name = ma.model_name_or_path) := by
  obtain ⟨lc, cls, h1, h2, rfl⟩ := main_ok_elim ma da ta env evs h
  refine ⟨okTrace_countP_loadModel ma da ta lc cls,
    okTrace_countP_loadTok ma da ta lc cls,
    ⟨cls, (okTrace_loadModel_mem ma da ta lc cls cls _ _).mpr ⟨rfl, rfl, rfl⟩⟩,
    (okTrace_loadTok_mem ma da ta lc cls _).mpr rfl, ?_, ?_⟩
  · intro cls' name dt hm
    exact ((okTrace_loadModel_mem ma da ta lc cls cls' name dt).mp hm).2.1
  · intro name hm
    exact (okTrace_loadTok_mem ma da ta lc cls name).mp hm

/-- C9: on a completed run, the dtype carried by the from_pretrained call is
bfloat16 when fp16_opt_level is O2 and bf16 is set (bf16 winning over
fp16), float16 when fp16_opt_level is O2 with fp16 set and bf16 clear, and
float32 in every other case. -/
theorem C9_dtype_selection (ma : ModelArgument) (da : DataArgument)
    (ta : TrainingArguments) (env : Env) (evs : List Event)
    (h : main ma da ta env = Except.ok evs) :
    (∃ cls, Event.loadModel cls ma.model_name_or_path (computeDtype ta) ∈ evs) ∧
    (∀ cls name dt, Event.loadModel cls name dt ∈ evs →
      dt = if ta.fp16_opt_level = "O2" ∧ ta.bf16 = true then "bfloat16"
           else if ta.fp16_opt_level = "O2" ∧ ta.fp16 = true then "float16"
           else "float32") := by
  obtain ⟨lc, cls, h1, h2, rfl⟩ := main_ok_elim ma da ta env evs h
  constructor
  · exact ⟨cls, (okTrace_loadModel_mem ma da ta lc cls cls _ _).mpr ⟨rfl, rfl, rfl⟩⟩
  · intro cls' name dt hm
    rw [← computeDtype_spec]
    exact ((okTrace_loadModel_mem ma da ta lc cls cls' name dt).mp hm).2.2

/-- C3: on a completed run the trace has the fixed shape: argument parsing
first, then checkpoint detection, then the model load, then only optional
wrapping events, then the tokenizer load, then only dataset events, then
the trainer construction, and after it only train/eval invocation events;
in particular no model load precedes parsing and no trainer call precedes
dataset construction. -/
theorem C3_step_order (ma : ModelArgument) (da : DataArgument)
    (ta : TrainingArguments) (env : Env) (evs : List Event)
    (h : main ma da ta env = Except.ok evs) :
    ∃ lc cls mdl wrapEvs dsEvs trainEvs evalEvs,
      evs = [Event.parseArgs, Event.detectCheckpoint lc,
             Event.loadModel cls ma.model_name_or_path (computeDtype ta)]
        ++ wrapEvs ++ [Event.loadTokenizer ma.model_name_or_path]
        ++ dsEvs ++ [Event.buildTrainer mdl ta.do_train ta.do_eval
            (ma.eval_with_do_generation && ta.do_eval) ma.eval_with_do_generation]
        ++ trainEvs ++ evalEvs ∧
      (∀ e ∈ wrapEvs, e = Event.wrapLoRA ∨ e = Event.wrapPrefixModel) ∧
      (∀ e ∈ dsEvs, e = Event.loadDatasets da.task_name ["train_v1", "dev_v1"] ∨
        e = Event.mapTrainDS ∨ e = Event.mapDevDS ma.eval_with_do_generation) ∧
      (∀ e ∈ trainEvs, e = Event.trainerTrain lc ∨
        e = Event.saveModel (decide (ta.tensor_parallel_degree > 1)) ∨
        e = Event.logMetrics "train" ∨ e = Event.saveMetrics "train" ∨
        e = Event.saveState) ∧
      (∀ e ∈ evalEvs, e = Event.trainerEvaluate ∨ e = Event.logMetrics "test") := by
  obtain ⟨lc, cls, h1, h2, rfl⟩ := main_ok_elim ma da ta env evs h
  refine ⟨lc, cls,
    wrappedModel ma (Model.pretrained cls ma.model_name_or_path (computeDtype ta)),
    (if ma.lora then [Event.wrapLoRA] else []) ++
      (if ma.prefix_tuning then [Event.wrapPrefixModel] else []),
    (if ta.do_train || ta.do_eval then
        [Event.loadDatasets da.task_name ["train_v1", "dev_v1"]] else []) ++
      (if ta.do_train then [Event.mapTrainDS] else []) ++
      (if ta.do_eval then [Event.mapDevDS ma.eval_with_do_generation] else []),
    (if ta.do_train then
        [Event.trainerTrain lc,
         Event.saveModel (decide (ta.tensor_parallel_degree > 1)),
         Event.logMetrics "train", Event.saveMetrics "train", Event.saveState]
      else []),
    (if ta.do_eval then [Event.trainerEvaluate, Event.logMetrics "test"] else []),
    okTrace_eq ma da ta lc cls, ?_, ?_, ?_, ?_⟩ <;>
    intro e he <;> split_ifs at he <;> simp_all <;> tauto

/-- C4: on a completed run, the trainer.train call (with the detected last
checkpoint) and each of its follow-ups save_model, log_metrics,
save_metrics, save_state occur exactly when do_train is set, the
trainer.evaluate call occurs exactly when do_eval is set, and when both are
set the train call precedes the evaluate call. -/
theorem C4_train_eval_calls (ma : ModelArgument) (da : DataArgument)
    (ta : TrainingArguments) (env : Env) (evs : List Event)
    (h : main ma da ta env = Except.ok evs) :
    ∃ lc, detectLastCheckpoint ta env = Except.ok lc ∧
      ((Event.trainerTrain lc ∈ evs) ↔ ta.do_train = true) ∧
      ((Event.saveModel (decide (ta.tensor_parallel_degree > 1)) ∈ evs) ↔
        ta.do_train = true) ∧
      ((Event.logMetrics "train" ∈ evs) ↔ ta.do_train = true) ∧
      ((Event.saveMetrics "train" ∈ evs) ↔ ta.do_train = true) ∧
      ((Event.saveState ∈ evs) ↔ ta.do_train = true) ∧
      ((Event.trainerEvaluate ∈ evs) ↔ ta.do_eval = true) ∧
      ((Event.logMetrics "test" ∈ evs) ↔ ta.do_eval = true) ∧
      (ta.do_train = true → ta.do_eval = true →
        ∃ l1 l2 l3, evs = l1 ++ Event.trainerTrain lc ::
          (l2 ++ Event.trainerEvaluate :: l3)) := by
  obtain ⟨lc, cls, h1, h2, rfl⟩ := main_ok_elim ma da ta env evs h
  refine ⟨lc, h1, ?_, ?_, ?_, ?_,
    okTrace_saveState_mem ma da ta lc cls,
    okTrace_trainerEvaluate_mem ma da ta lc cls, ?_, ?_⟩
  · rw [okTrace_trainerTrain_mem]; simp
  · rw [okTrace_saveModel_mem]; simp
  · rw [okTrace_logMetrics_mem]
    constructor
    · rintro (⟨-, hdt⟩ | ⟨hteq, -⟩)
      · exact hdt
      · exact absurd hteq (by decide)
    · intro hdt; exact Or.inl ⟨rfl, hdt⟩
  · rw [okTrace_saveMetrics_mem]; simp
  · rw [okTrace_logMetrics_mem]
    constructor
    · rintro (⟨hteq, -⟩ | ⟨-, hde⟩)
      · exact absurd hteq (by decide)
      · exact hde
    · intro hde; exact Or.inr ⟨rfl, hde⟩
  · intro hdt hde
    refine ⟨[Event.parseArgs, Event.detectCheckpoint lc,
        Event.loadModel cls ma.model_name_or_path (computeDtype ta)] ++
        ((if ma.lora then [Event.wrapLoRA] else []) ++
          (if ma.prefix_tuning then [Event.wrapPrefixModel] else [])) ++
        [Event.loadTokenizer ma.model_name_or_path] ++
        ([Event.loadDatasets da.task_name ["train_v1", "dev_v1"]] ++
          [Event.mapTrainDS] ++ [Event.mapDevDS ma.eval_with_do_generation]) ++
        [Event.buildTrainer
          (wrappedModel ma (Model.pretrained cls ma.model_name_or_path (computeDtype ta)))
          ta.do_train ta.do_eval
          (ma.eval_with_do_generation && ta.do_eval) ma.eval_with_do_generation],
      [Event.saveModel (decide (ta.tensor_parallel_degree > 1)),
       Event.logMetrics "train", Event.saveMetrics "train", Event.saveState],
      [Event.logMetrics "test"], ?_⟩
    rw [okTrace_eq]
    simp [hdt, hde]

/-- C8: when pipeline_parallel_degree exceeds one and both
eval_with_do_generation and do_eval are set, main raises a ValueError
having loaded no model; on every completed run the model class of the
from_pretrained call is LlamaForCausalLMPipe when pipeline_parallel_degree
exceeds one and AutoModelForCausalLM otherwise. -/
theorem C8_pipeline_check (ma : ModelArgument) (da : DataArgument)
    (ta : TrainingArguments) (env : Env) :
    ((1 < ta.pipeline_parallel_degree ∧ ma.eval_with_do_generation = true ∧
        ta.do_eval = true) →
      ∃ msg pre, main ma da ta env = Except.error (msg, pre) ∧
        pre.countP Event.isLoadModel = 0) ∧
    (∀ evs, main ma da ta env = Except.ok evs →
      ∀ cls name dt, Event.loadModel cls name dt ∈ evs →
        cls = if ta.pipeline_parallel_degree > 1 then ModelClass.LlamaForCausalLMPipe
              else ModelClass.AutoModelForCausalLM) := by
  constructor
  · rintro ⟨hp, hg, he⟩
    have hsel : selectModelClass ma ta = Except.error
        "Plese set eval_with_do_generation to false in pipeline parallel mode." := by
      unfold selectModelClass
      simp [hp, hg, he]
    unfold main
    cases h1 : detectLastCheckpoint ta env with
    | error msg =>
        exact ⟨msg, [Event.parseArgs], rfl,
          by simp [List.countP_cons, Event.isLoadModel]⟩
    | ok lc =>
        rw [hsel]
        exact ⟨_, [Event.parseArgs, Event.detectCheckpoint lc], rfl,
          by simp [List.countP_cons, Event.isLoadModel]⟩
  · intro evs hok cls name dt hm
    obtain ⟨lc, cls0, h1, h2, rfl⟩ := main_ok_elim ma da ta env evs hok
    rcases selectModelClass_ok ma ta cls0 h2 with rfl
    exact ((okTrace_loadModel_mem ma da ta lc _ cls name dt).mp hm).1

/-- The output-directory ValueError of checkpoint detection is raised
exactly when the directory exists, do_train is set, overwrite_output_dir
is not, no checkpoint is found and the directory has more than one
entry. -/
theorem detectLastCheckpoint_error_iff (ta : TrainingArguments) (env : Env)
    (msg : String) :
    detectLastCheckpoint ta env = Except.error msg ↔
      (msg = outputDirErrorMsg ta ∧ env.output_dir_is_dir = true ∧
       ta.do_train = true ∧ ta.overwrite_output_dir = false ∧
       env.last_checkpoint = none ∧ 1 < env.output_dir_num_entries) := by
  unfold detectLastCheckpoint
  cases h4 : env.last_checkpoint <;>
    (simp only [h4]; split_ifs <;> simp_all <;> tauto)

/-- C7 as amended: main stops with the output-directory ValueError, having
performed only argument parsing, exactly when output_dir is a directory,
do_train is set, overwrite_output_dir is not, get_last_checkpoint returns
None and the directory has strictly more than one entry; a directory with
exactly one entry and no checkpoint never triggers it. -/
theorem C7_dir_error_iff (ma : ModelArgument) (da : DataArgument)
    (ta : TrainingArguments) (env : Env) :
    main ma da ta env =
        Except.error (outputDirErrorMsg ta, [Event.parseArgs]) ↔
      (env.output_dir_is_dir = true ∧ ta.do_train = true ∧
       ta.overwrite_output_dir = false ∧ env.last_checkpoint = none ∧
       1 < env.output_dir_num_entries) := by
  unfold main
  constructor
  · intro h
    cases h1 : detectLastCheckpoint ta env with
    | error msg =>
        exact ((detectLastCheckpoint_error_iff ta env msg).mp h1).2
    | ok lc =>
        rw [h1] at h
        cases h2 : selectModelClass ma ta with
        | error m => rw [h2] at h; exact absurd h (by simp)
        | ok cls => rw [h2] at h; exact absurd h (by simp)
  · rintro ⟨c1, c2, c3, c4, c5⟩
    have h1 : detectLastCheckpoint ta env = Except.error (outputDirErrorMsg ta) :=
      (detectLastCheckpoint_error_iff ta env _).mpr ⟨rfl, c1, c2, c3, c4, c5⟩
    rw [h1]

/-- A configuration for which main raises a ValueError before any model
load although the output-directory condition of C7 is false: the pipeline
check fires instead. -/
def cexMa : ModelArgument := {}

/-- The data arguments of the C7 counterexample (all defaults). -/
def cexDa : DataArgument := {}

/-- The training arguments of the C7 counterexample: do_eval with
pipeline_parallel_degree 2, the output directory absent. -/
def cexTa : TrainingArguments := { do_eval := true, pipeline_parallel_degree := 2 }

/-- The environment of the C7 counterexample: output_dir is not a
directory, so the output-directory condition cannot hold. -/
def cexEnv : Env := {}

/-- C7 counterexample: at this configuration main raises a ValueError with
no model loaded, yet the claimed iff-condition (directory exists, do_train,
no overwrite, no checkpoint, more than one entry) is false, so raising a
ValueError before loading any model is not equivalent to that condition. -/
theorem C7_counterexample :
    (∃ msg pre, main cexMa cexDa cexTa cexEnv = Except.error (msg, pre) ∧
       pre.countP Event.isLoadModel = 0) ∧
    ¬(cexEnv.output_dir_is_dir = true ∧ cexTa.do_train = true ∧
      cexTa.overwrite_output_dir = false ∧ cexEnv.last_checkpoint = none ∧
      1 < cexEnv.output_dir_num_entries) := by
  constructor
  · exact ⟨"Plese set eval_with_do_generation to false in pipeline parallel mode.",
      [Event.parseArgs, Event.detectCheckpoint none], rfl, rfl⟩
  · intro hc
    exact absurd hc.1 (by decide)

/-- C2 counterexample: were all metric computation performed by the
imported libraries, compute_metrics_trainer would hand the scorer exactly
the decoded strings.  Here the decoder returns the string
"question: Paris" and the scorer returns its two argument lists, yet the
result is not the pair of decoded lists: the script itself strips the
string down to " Par" before scoring. -/
theorem C2_counterexample :
    computeMetricsTrainer (fun _ => ["question: Paris"]) (fun ps ls => (ps, ls))
      [[5, -100]] [[7]] ≠ (["question: Paris"], ["question: Paris"]) := by
  decide

/-- C2 as amended: the final scoring is delegated to the imported
compute_metrics, but the script's compute_metrics_trainer performs part of
the metric computation itself: it masks the -100 ignore index and applies
scriptPostprocess (whitespace strip followed by a strip of the characters
of the string question-colon) to every decoded prediction and label before
scoring, and that post-processing is not the identity. -/
theorem C2_scoring_delegation (α : Type)
    (batch_decode : List (List Int) → List String)
    (compute_metrics : List String → List String → α)
    (predictions label_ids : List (List Int)) :
    computeMetricsTrainer batch_decode compute_metrics predictions label_ids =
      compute_metrics
        ((batch_decode (predictions.map filterIgnoreIndex)).map scriptPostprocess)
        ((batch_decode (label_ids.map filterIgnoreIndex)).map scriptPostprocess) ∧
    scriptPostprocess "question: Paris" ≠ "question: Paris" := by
  constructor
  · unfold computeMetricsTrainer scriptPostprocess
    simp [List.map_map, Function.comp_def]
  · decide

/-- A concrete configuration exercising both wrapping flags. -/
def wMa : ModelArgument := { lora := true, prefix_tuning := true }

/-- Concrete data arguments (all defaults). -/
def wDa : DataArgument := {}

/-- Concrete training arguments with both do_train and do_eval set. -/
def wTa : TrainingArguments := { do_train := true, do_eval := true }

/-- A concrete environment: no output directory yet. -/
def wEnv : Env := {}

/-- The trace main produces on the concrete configuration. -/
def wTrace : List Event := okTrace wMa wDa wTa none ModelClass.AutoModelForCausalLM

/-- Witness for C1 at the concrete configuration: with both flags set the
trainer receives the doubly wrapped model. -/
theorem C1_witness :
    trainerModelOf wTrace = some (Model.prefixWrapped (Model.loraWrapped
      (Model.pretrained ModelClass.AutoModelForCausalLM
        "facebook/llama-7b" "float32"))) :=
  C1_model_wrapping wMa wDa wTa wEnv wTrace rfl

/-- Witness for C3 at the concrete configuration. -/
theorem C3_witness :
    ∃ lc cls mdl wrapEvs dsEvs trainEvs evalEvs,
      wTrace = [Event.parseArgs, Event.detectCheckpoint lc,
             Event.loadModel cls wMa.model_name_or_path (computeDtype wTa)]
        ++ wrapEvs ++ [Event.loadTokenizer wMa.model_name_or_path]
        ++ dsEvs ++ [Event.buildTrainer mdl wTa.do_train wTa.do_eval
            (wMa.eval_with_do_generation && wTa.do_eval) wMa.eval_with_do_generation]
        ++ trainEvs ++ evalEvs ∧
      (∀ e ∈ wrapEvs, e = Event.wrapLoRA ∨ e = Event.wrapPrefixModel) ∧
      (∀ e ∈ dsEvs, e = Event.loadDatasets wDa.task_name ["train_v1", "dev_v1"] ∨
        e = Event.mapTrainDS ∨ e = Event.mapDevDS wMa.eval_with_do_generation) ∧
      (∀ e ∈ trainEvs, e = Event.trainerTrain lc ∨
        e = Event.saveModel (decide (wTa.tensor_parallel_degree > 1)) ∨
        e = Event.logMetrics "train" ∨ e = Event.saveMetrics "train" ∨
        e = Event.saveState) ∧
      (∀ e ∈ evalEvs, e = Event.trainerEvaluate ∨ e = Event.logMetrics "test") :=
  C3_step_order wMa wDa wTa wEnv wTrace rfl

/-- Witness for C4 at the concrete configuration. -/
theorem C4_witness :
    ∃ lc, detectLastCheckpoint wTa wEnv = Except.ok lc ∧
      ((Event.trainerTrain lc ∈ wTrace) ↔ wTa.do_train = true) ∧
      ((Event.saveModel (decide (wTa.tensor_parallel_degree > 1)) ∈ wTrace) ↔
        wTa.do_train = true) ∧
      ((Event.logMetrics "train" ∈ wTrace) ↔ wTa.do_train = true) ∧
      ((Event.saveMetrics "train" ∈ wTrace) ↔ wTa.do_train = true) ∧
      ((Event.saveState ∈ wTrace) ↔ wTa.do_train = true) ∧
      ((Event.trainerEvaluate ∈ wTrace) ↔ wTa.do_eval = true) ∧
      ((Event.logMetrics "test" ∈ wTrace) ↔ wTa.do_eval = true) ∧
      (wTa.do_train = true → wTa.do_eval = true →
        ∃ l1 l2 l3, wTrace = l1 ++ Event.trainerTrain lc ::
          (l2 ++ Event.trainerEvaluate :: l3)) :=
  C4_train_eval_calls wMa wDa wTa wEnv wTrace rfl

/-- Witness for C5 at the concrete configuration. -/
theorem C5_witness :
    ((Event.loadDatasets wDa.task_name ["train_v1", "dev_v1"] ∈ wTrace) ↔
      (wTa.do_train || wTa.do_eval) = true) ∧
    ((Event.mapTrainDS ∈ wTrace) ↔ wTa.do_train = true) ∧
    ((∃ b, Event.mapDevDS b ∈ wTrace) ↔ wTa.do_eval = true) ∧
    (∀ b, Event.mapDevDS b ∈ wTrace → b = wMa.eval_with_do_generation) ∧
    (∃ mdl, Event.buildTrainer mdl wTa.do_train wTa.do_eval
      (wMa.eval_with_do_generation && wTa.do_eval) wMa.eval_with_do_generation ∈ wTrace) ∧
    (∀ mdl b1 b2 b3 b4, Event.buildTrainer mdl b1 b2 b3 b4 ∈ wTrace →
      b1 = wTa.do_train ∧ b2 = wTa.do_eval) :=
  C5_dataset_flags wMa wDa wTa wEnv wTrace rfl

/-- Witness for C6 at the concrete configuration. -/
theorem C6_witness :
    wTrace.countP Event.isLoadModel = 1 ∧
    wTrace.countP Event.isLoadTok = 1 ∧
    (∃ cls, Event.loadModel cls wMa.model_name_or_path (computeDtype wTa) ∈ wTrace) ∧
    Event.loadTokenizer wMa.model_name_or_path ∈ wTrace ∧
    (∀ cls name dt, Event.loadModel cls name dt ∈ wTrace →
      name = wMa.model_name_or_path) ∧
    (∀ name, Event.loadTokenizer name ∈ wTrace → name = wMa.model_name_or_path) :=
  C6_single_from_pretrained wMa wDa wTa wEnv wTrace rfl

/-- Witness for C9 at the concrete configuration. -/
theorem C9_witness :
    (∃ cls, Event.loadModel cls wMa.model_name_or_path (computeDtype wTa) ∈ wTrace) ∧
    (∀ cls name dt, Event.loadModel cls name dt ∈ wTrace →
      dt = if wTa.fp16_opt_level = "O2" ∧ wTa.bf16 = true then "bfloat16"
           else if wTa.fp16_opt_level = "O2" ∧ wTa.fp16 = true then "float16"
           else "float32") :=
  C9_dtype_selection wMa wDa wTa wEnv wTrace rfl

end FinetuneGeneration
